import Mathlib

/-!
Footstep execution engine (`FootstepNavigation.cpp`).

A shallow embedding of `footstep_planner::FootstepNavigation`.

* C++ `double` values are IEEE 754 binary64 values (`Double`): finite values
  `m * 2^e`, the two infinities and NaN; subtraction rounds to nearest, ties
  to even, and overflows to an infinity.  The sign of zero is not kept.
* The `uint8` leg of a `humanoid_nav_msgs::StepTarget` is a natural number.
* The planner member `ivPlanner` is a value of an arbitrary type `P`; its
  operations are functions on `P` supplied by the environment.
* The other collaborators (tf listener, clip service, clock) are
  deterministic functions of the history of events issued so far; every call
  the object makes to the outside is appended to that history.
* Code declared outside the translated file (`get_footstep`, `tf::getYaw`,
  the `double` to `float` conversion) is taken as a parameter.
* Starting a `boost::thread` is recorded as an event; the new thread is not
  run inside the function that starts it.  The mutex is not modelled: each
  member function is run from start to end on its own.
-/

namespace footstep_planner

/-- A C++ `double`: a finite value `m * 2^e` (for a value the machine can
hold, `m` has at most 53 binary digits and `e` lies between -1074 and 971),
an infinity, or NaN. -/
inductive Double where
  | finite (m : Int) (e : Int)
  | inf (negative : Bool)
  | nan
  deriving DecidableEq, Repr

/-- Number of binary digits of `n`, counted with `fuel` halvings. -/
def bitLengthAux : Nat → Nat → Nat
  | 0, _ => 0
  | fuel + 1, n => if n = 0 then 0 else bitLengthAux fuel (n / 2) + 1

/-- Number of binary digits of a natural number. -/
def bitLength (n : Nat) : Nat :=
  bitLengthAux n n

/-- The `double` nearest to the exact value `a * 2^e`, negated when `negative`
is set: at most 53 binary digits are kept, a tie goes to the even neighbour,
and a result of `2^1024` or more is an infinity. -/
def Double.round (negative : Bool) (a : Nat) (e : Int) : Double :=
  if bitLength a ≤ 53 then
    Double.finite (if negative then -(a : Int) else (a : Int)) e
  else
    let s := bitLength a - 53
    let q := a / 2 ^ s
    let r := a % 2 ^ s
    let half := 2 ^ (s - 1)
    let q1 := if half < r ∨ (r = half ∧ q % 2 = 1) then q + 1 else q
    let q2 := if q1 = 2 ^ 53 then 2 ^ 52 else q1
    let e2 : Int := if q1 = 2 ^ 53 then e + s + 1 else e + s
    if 971 < e2 then Double.inf negative
    else Double.finite (if negative then -(q2 : Int) else (q2 : Int)) e2

/-- The C++ operator `a - b` on `double`. -/
def Double.sub : Double → Double → Double
  | Double.nan, _ => Double.nan
  | _, Double.nan => Double.nan
  | Double.inf s, Double.inf t => if s = t then Double.nan else Double.inf s
  | Double.inf s, Double.finite _ _ => Double.inf s
  | Double.finite _ _, Double.inf t => Double.inf (!t)
  | Double.finite m1 e1, Double.finite m2 e2 =>
    let e := min e1 e2
    let d : Int := m1 * 2 ^ (e1 - e).toNat - m2 * 2 ^ (e2 - e).toNat
    Double.round (decide (d < 0)) d.natAbs e

/-- The C++ unary operator `-a` on `double`. -/
def Double.neg : Double → Double
  | Double.finite m e => Double.finite (-m) e
  | Double.inf s => Double.inf (!s)
  | Double.nan => Double.nan

/-- The C library function `fabs`. -/
def Double.fabs : Double → Double
  | Double.finite m e => Double.finite (m.natAbs : Int) e
  | Double.inf _ => Double.inf false
  | Double.nan => Double.nan

/-- The C++ operator `a <= b` on `double`; false when an operand is NaN. -/
def Double.le : Double → Double → Bool
  | Double.nan, _ => false
  | _, Double.nan => false
  | Double.inf s, Double.inf t => s || !t
  | Double.inf s, Double.finite _ _ => s
  | Double.finite _ _, Double.inf t => !t
  | Double.finite m1 e1, Double.finite m2 e2 =>
    decide (m1 * 2 ^ (e1 - min e1 e2).toNat ≤ m2 * 2 ^ (e2 - min e1 e2).toNat)

/-- The exact value of a finite `double` as a rational number; zero for the
infinities and NaN. -/
def Double.toRat : Double → ℚ
  | Double.finite m e => (m : ℚ) * (2 : ℚ) ^ e
  | Double.inf _ => 0
  | Double.nan => 0

instance : Sub Double := ⟨Double.sub⟩

instance : Neg Double := ⟨Double.neg⟩

instance (n : Nat) : OfNat Double n := ⟨Double.finite (n : Int) 0⟩

/-- The planner's leg enumeration. -/
inductive Leg where
  | RIGHT
  | LEFT
  deriving DecidableEq, Repr

/-- A planned foot placement in the world frame (`State`). -/
structure State where
  x : Double
  y : Double
  theta : Double
  leg : Leg
  deriving DecidableEq, Repr

/-- The message type `geometry_msgs::Pose2D`. -/
structure Pose2D where
  x : Double
  y : Double
  theta : Double
  deriving DecidableEq, Repr

/-- The message type `humanoid_nav_msgs::StepTarget`; `leg` is a `uint8`. -/
structure StepTarget where
  pose : Pose2D
  leg : Nat
  deriving DecidableEq, Repr

/-- Modelled from the spec: the constant `humanoid_nav_msgs::StepTarget::right`
is declared in the message package, outside the translated sources; the spec
only says that a relative footstep carries a leg that is LEFT or RIGHT. -/
def StepTarget.right : Nat := 0

/-- Modelled from the spec: the constant `humanoid_nav_msgs::StepTarget::left`
is declared in the message package, outside the translated sources; the spec
only says that a relative footstep carries a leg that is LEFT or RIGHT. -/
def StepTarget.left : Nat := 1

/-- The service type `humanoid_nav_msgs::ClipFootstep`: the request step and
the response step. -/
structure ClipFootstep where
  request : StepTarget
  response : StepTarget
  deriving DecidableEq, Repr

/-- A vector of three doubles (`tf::Vector3`). -/
structure Vector3 where
  x : Double
  y : Double
  z : Double
  deriving DecidableEq, Repr

/-- A rotation (`tf::Quaternion`). -/
structure Quaternion where
  x : Double
  y : Double
  z : Double
  w : Double
  deriving DecidableEq, Repr

/-- A rigid transform (`tf::Transform`): origin and rotation. -/
structure Transform where
  origin : Vector3
  rotation : Quaternion
  deriving DecidableEq, Repr

/-- The goal message (`geometry_msgs::PoseStamped`), reduced to the fields the
code reads. -/
structure PoseStamped where
  position : Vector3
  orientation : Quaternion
  deriving DecidableEq, Repr

/-- Where a call of the clip service is made from. -/
inductive ClipSite where
  | getFootstep
  | debugFootstepExecution
  deriving DecidableEq, Repr

/-- Everything the object does to the outside, in the order it happens. -/
inductive Event where
  /-- The `waitForTransform` and `lookupTransform` pair of one
  `getFootTransform` call: world frame, foot frame, time. -/
  | lookupTransform (world_frame_id foot_id : String) (time : Nat)
  /-- One call of `ivClipFootstepSrv` with the request sent and the response
  found in the service object afterwards. -/
  | clipFootstep (site : ClipSite) (request response : StepTarget)
  /-- One call of `ivFootstepSrv` (actuation) with the step sent. -/
  | footstep (step : StepTarget)
  | plannerSetGoal (x y theta : Double)
  | plannerSetStart (right left : State)
  | plannerPlan
  | plannerReplan
  /-- A new `boost::thread` running `executeFootsteps`. -/
  | threadExecuteFootsteps
  /-- The process is terminated with `exit(0)`. -/
  | exit
  /-- A `ROS_INFO` line: the format string, arguments left out. -/
  | rosInfo (msg : String)
  /-- A `ROS_WARN` line: the format string, arguments left out. -/
  | rosWarn (msg : String)
  /-- A `ROS_ERROR` line: the format string, arguments left out. -/
  | rosError (msg : String)
  deriving DecidableEq, Repr

/-- The external collaborators and the helper code declared outside the
translated file.  Each collaborator answers as a function of the history of
events issued before the call. -/
structure Env (P : Type) where
  /-- The helper `get_footstep(from_x, from_y, from_theta, to_x, to_y,
  to_theta, support_leg, fs_x, fs_y, fs_theta)`; the three outputs are
  returned as a triple. -/
  get_footstep : Double → Double → Double → Double → Double → Double → Leg →
    Double × Double × Double
  /-- The helper `tf::getYaw`. -/
  getYaw : Quaternion → Double
  /-- The implicit conversion of a `double` argument to a `float` parameter. -/
  toFloat : Double → Double
  /-- The clock `ros::Time::now()`. -/
  now : List Event → Nat
  /-- The tf listener: `none` when a `tf::TransformException` is thrown. -/
  lookupTransform : List Event → String → String → Nat → Option Transform
  /-- The content of a default-constructed `tf::StampedTransform`. -/
  defaultStampedTransform : List Event → Transform
  /-- The content of a default-constructed `tf::Transform`. -/
  defaultTransform : List Event → Transform
  /-- The clip service: the response for a request. -/
  clipFootstep : List Event → StepTarget → StepTarget
  /-- The planner operation `setGoal(x, y, theta)`: result and new planner. -/
  plannerSetGoal : P → Double → Double → Double → Bool × P
  /-- The planner operation `setStart(right, left)`: result and new planner. -/
  plannerSetStart : P → State → State → Bool × P
  /-- The planner operation `plan()`: result and new planner. -/
  plannerPlan : P → Bool × P
  /-- The planner operation `replan()`: result and new planner. -/
  plannerReplan : P → Bool × P
  /-- The planner's current path (`getPathBegin` to `getPathEnd`). -/
  plannerPath : P → List State

/-- The member variables of `FootstepNavigation` together with the history of
events. -/
structure Nav (P : Type) where
  ivPlanner : P
  ivLastRobotTime : Nat
  ivFootIDRight : String
  ivFootIDLeft : String
  ivMapFrameID : String
  ivExecutingFootsteps : Bool
  ivAccuracyX : Double
  ivAccuracyY : Double
  ivAccuracyTheta : Double
  log : List Event

/-- Append one event to the history. -/
def Nav.emit {P : Type} (nav : Nav P) (e : Event) : Nav P :=
  { nav with log := nav.log ++ [e] }

/-- The result of running a member function that may terminate the process. -/
structure Run (P : Type) where
  nav : Nav P
  exited : Bool

variable {P : Type}

/-- Member function `FootstepNavigation::performable`. -/
def performable (nav : Nav P) (step : ClipFootstep) : Bool :=
  Double.le (Double.fabs (step.request.pose.x - step.response.pose.x)) nav.ivAccuracyX &&
  Double.le (Double.fabs (step.request.pose.y - step.response.pose.y)) nav.ivAccuracyY &&
  Double.le (Double.fabs (step.request.pose.theta - step.response.pose.theta))
    nav.ivAccuracyTheta &&
  decide (step.request.leg = step.response.leg)

/-- Member function `FootstepNavigation::getFootTransform`.  The output
parameter `foot` is passed in with its previous value and returned. -/
def getFootTransform (env : Env P) (foot_id world_frame_id : String) (time : Nat)
    (foot : Transform) (nav : Nav P) : Transform × Nav P :=
  let stamped0 := env.defaultStampedTransform nav.log
  let nav1 := nav.emit (Event.lookupTransform world_frame_id foot_id time)
  let res :=
    match env.lookupTransform nav.log world_frame_id foot_id time with
    | some t => (t, nav1)
    | none => (stamped0, nav1.emit (Event.rosWarn "Failed to obtain FootTransform from tf (%s)"))
  let foot1 : Transform := { foot with origin := res.1.origin }
  let foot2 : Transform := { foot1 with rotation := res.1.rotation }
  (foot2, res.2)

/-- Member function `FootstepNavigation::getFootstep`.  The in-out parameter
`footstep` is passed in and returned next to the boolean result. -/
def getFootstep (env : Env P) (from_ : Transform) (to_ : State) (footstep : StepTarget)
    (nav : Nav P) : Bool × StepTarget × Nav P :=
  let from_leg : Leg := if to_.leg = Leg.RIGHT then Leg.LEFT else Leg.RIGHT
  let fs := env.get_footstep from_.origin.x from_.origin.y (env.getYaw from_.rotation)
    to_.x to_.y to_.theta from_leg
  let footstep_x := fs.1
  let footstep_y := fs.2.1
  let footstep_theta := fs.2.2
  let footstep1 : StepTarget := { footstep with pose := { footstep.pose with x := footstep_x } }
  let footstep2 : StepTarget :=
    if from_leg = Leg.RIGHT then
      { pose := { footstep1.pose with y := footstep_y, theta := footstep_theta },
        leg := StepTarget.left }
    else
      { pose := { footstep1.pose with y := -footstep_y, theta := -footstep_theta },
        leg := StepTarget.right }
  let response := env.clipFootstep nav.log footstep2
  let nav1 := nav.emit (Event.clipFootstep ClipSite.getFootstep footstep2 response)
  let performable_b := performable nav1 { request := footstep2, response := response }
  if performable_b then
    (true,
      { footstep2 with
        pose := { x := response.pose.x, y := response.pose.y, theta := response.pose.theta } },
      nav1)
  else
    (false, footstep2, nav1)

/-- Member function `FootstepNavigation::debugFootstepExecution`. -/
def debugFootstepExecution (env : Env P) (from_ : Transform) (from_planned to_planned : State)
    (nav : Nav P) : Nav P :=
  let nav1 := nav.emit (Event.rosInfo "--- compare calculated state and actual footstep placement")
  let nav2 := nav1.emit (Event.rosInfo "calculated state (%f, %f, %f, %i)")
  let nav3 := nav2.emit (Event.rosInfo "actual state (%f, %f, %f, %i)")
  let nav4 := nav3.emit
    (Event.rosInfo "--- actual footstep placement and next (planned) footstep placement")
  let nav5 := nav4.emit (Event.rosInfo "current (%f, %f, %f, %i)")
  let nav6 := nav5.emit (Event.rosInfo "next (%f, %f, %f, %i)")
  let nav7 := nav6.emit (Event.rosInfo "--- relative footstep and practicability")
  let fs := env.get_footstep from_.origin.x from_.origin.y (env.getYaw from_.rotation)
    to_planned.x to_planned.y to_planned.theta from_planned.leg
  let fs_x := fs.1
  let fs_y := fs.2.1
  let fs_theta := fs.2.2
  let nav8 := nav7.emit (Event.rosInfo "footstep 'fs' (%f, %f, %f)")
  let nav9 := nav8.emit (Event.rosInfo "--- footstep clipping")
  let request : StepTarget :=
    if from_planned.leg = Leg.LEFT then
      { pose := { x := fs_x, y := -fs_y, theta := -fs_theta }, leg := StepTarget.right }
    else
      { pose := { x := fs_x, y := fs_y, theta := fs_theta }, leg := StepTarget.left }
  let response := env.clipFootstep nav9.log request
  let nav10 := nav9.emit (Event.clipFootstep ClipSite.debugFootstepExecution request response)
  let performable_b := performable nav10 { request := request, response := response }
  let nav11 := nav10.emit (Event.rosInfo "original footstep 'fs' (%f, %f, %f)")
  let nav12 := nav11.emit (Event.rosInfo "clipped footstep 'fs' (%f, %f, %f)")
  let nav13 := nav12.emit
    (Event.rosInfo (if performable_b then "performable? 1" else "performable? 0"))
  nav13.emit (Event.rosInfo "---------------------------------------------------------\n")

/-- The loop `while (to_planned != ivPlanner.getPathEnd())` of
`executeFootsteps`: the remaining path from `to_planned` on, and the local
variables `from_planned`, `from` and `step` that live across iterations.  The
statements after `exit(0)` are never reached. -/
def executeFootstepsLoop (env : Env P) :
    List State → State → Transform → StepTarget → Nav P → Run P
  | [], _, _, _, nav =>
    { nav := { nav with ivExecutingFootsteps := false }, exited := false }
  | to_planned :: rest, from_planned, from_, step, nav =>
    let support_foot_id :=
      if to_planned.leg = Leg.LEFT then nav.ivFootIDRight else nav.ivFootIDLeft
    let step1 : StepTarget :=
      if to_planned.leg = Leg.LEFT then { step with leg := StepTarget.left }
      else { step with leg := StepTarget.right }
    let r1 := getFootTransform env support_foot_id nav.ivMapFrameID (env.now nav.log) from_ nav
    let r2 := getFootstep env r1.1 to_planned step1 r1.2
    let nav3 := debugFootstepExecution env r1.1 from_planned to_planned r2.2.2
    if r2.1 = false then
      { nav := (nav3.emit (Event.rosInfo
          "Footstep cannot be performed: new path planning necessary")).emit Event.exit,
        exited := true }
    else
      executeFootstepsLoop env rest to_planned r1.1 r2.2.1 (nav3.emit (Event.footstep r2.2.1))

/-- Member function `FootstepNavigation::executeFootsteps`. -/
def executeFootsteps (env : Env P) (nav : Nav P) : Run P :=
  let path := env.plannerPath nav.ivPlanner
  if path.length = 0 then
    { nav := nav, exited := false }
  else
    match path with
    | [] => { nav := nav.emit (Event.rosError "no plan available. return."), exited := false }
    | from_planned :: rest =>
      executeFootstepsLoop env rest from_planned (env.defaultTransform nav.log)
        { pose := { x := 0, y := 0, theta := 0 }, leg := 0 } nav

/-- Member function `FootstepNavigation::robotPoseCallback`; the argument is
the stamp of the message header. -/
def robotPoseCallback (stamp : Nat) (nav : Nav P) : Nav P :=
  { nav with ivLastRobotTime := stamp }

/-- Member function `FootstepNavigation::setGoal(float x, float y, float theta)`. -/
def setGoalXYTheta (env : Env P) (x y theta : Double) (nav : Nav P) : Bool × Nav P :=
  let r := env.plannerSetGoal nav.ivPlanner x y theta
  (r.1, { nav with ivPlanner := r.2 }.emit (Event.plannerSetGoal x y theta))

/-- Member function `FootstepNavigation::setGoal(goal_pose)`. -/
def setGoal (env : Env P) (goal_pose : PoseStamped) (nav : Nav P) : Bool × Nav P :=
  setGoalXYTheta env (env.toFloat goal_pose.position.x) (env.toFloat goal_pose.position.y)
    (env.toFloat (env.getYaw goal_pose.orientation)) nav

/-- Member function `FootstepNavigation::updateStart`. -/
def updateStart (env : Env P) (nav : Nav P) : Bool × Nav P :=
  let r1 := getFootTransform env nav.ivFootIDLeft nav.ivMapFrameID nav.ivLastRobotTime
    (env.defaultTransform nav.log) nav
  let foot_left := r1.1
  let r2 := getFootTransform env nav.ivFootIDRight nav.ivMapFrameID nav.ivLastRobotTime
    (env.defaultTransform nav.log) r1.2
  let foot_right := r2.1
  let left : State :=
    { x := foot_left.origin.x, y := foot_left.origin.y, leg := Leg.LEFT,
      theta := env.getYaw foot_left.rotation }
  let right : State :=
    { x := foot_right.origin.x, y := foot_right.origin.y, leg := Leg.RIGHT,
      theta := env.getYaw foot_right.rotation }
  let r := env.plannerSetStart r2.2.ivPlanner right left
  (r.1, { r2.2 with ivPlanner := r.2 }.emit (Event.plannerSetStart right left))

/-- Member function `FootstepNavigation::goalPoseCallback`. -/
def goalPoseCallback (env : Env P) (goal_pose : PoseStamped) (nav : Nav P) : Nav P :=
  if nav.ivExecutingFootsteps then
    nav.emit (Event.rosInfo "currently walking down a footstep path; no planning possible")
  else
    let r1 := setGoal env goal_pose nav
    if r1.1 then
      let r2 := updateStart env r1.2
      if r2.1 then
        let r3 := env.plannerPlan r2.2.ivPlanner
        let nav3 := { r2.2 with ivPlanner := r3.2 }.emit Event.plannerPlan
        if r3.1 then
          { nav3 with ivExecutingFootsteps := true }.emit Event.threadExecuteFootsteps
        else
          nav3
      else
        r2.2.emit (Event.rosError "start pose not accessible: check your odometry")
    else
      r1.2

/-- The steps sent to the actuation service, in order. -/
def actuationCalls (l : List Event) : List StepTarget :=
  l.filterMap fun e =>
    match e with
    | Event.footstep step => some step
    | _ => none

/-- The request and response pairs of the clip calls made by `getFootstep`. -/
def feasibilityChecks (l : List Event) : List ClipFootstep :=
  l.filterMap fun e =>
    match e with
    | Event.clipFootstep ClipSite.getFootstep request response =>
      some { request := request, response := response }
    | _ => none

/-- The request and response pairs of all calls of the clip service. -/
def clipCalls (l : List Event) : List ClipFootstep :=
  l.filterMap fun e =>
    match e with
    | Event.clipFootstep _ request response => some { request := request, response := response }
    | _ => none

/-- The planner operations and thread starts found in a history. -/
def plannerCalls (l : List Event) : List Event :=
  l.filter fun e =>
    match e with
    | Event.plannerSetGoal _ _ _ => true
    | Event.plannerSetStart _ _ => true
    | Event.plannerPlan => true
    | Event.plannerReplan => true
    | Event.threadExecuteFootsteps => true
    | _ => false

/-- The message leg of a planner leg, as `executeFootsteps` assigns it. -/
def stepLeg (leg : Leg) : Nat :=
  if leg = Leg.LEFT then StepTarget.left else StepTarget.right

/-- The events a run appended to the history it started from. -/
def issuedBy (nav : Nav P) (r : Run P) : List Event :=
  r.nav.log.drop nav.log.length

/-- The step that `executeFootsteps` sends to actuation after a feasibility
check: none when the check is judged not performable, else the pose of the
response with the leg of the request. -/
def accepted (nav : Nav P) (c : ClipFootstep) : Option StepTarget :=
  if performable nav c then some { pose := c.response.pose, leg := c.request.leg } else none

/-- The request that `getFootstep` sends to the clip service: the value of
`footstep` when `footstep_srv.request.step = footstep` is executed. -/
def getFootstepRequest (env : Env P) (from_ : Transform) (to_ : State) (footstep : StepTarget) :
    StepTarget :=
  let from_leg : Leg := if to_.leg = Leg.RIGHT then Leg.LEFT else Leg.RIGHT
  let fs := env.get_footstep from_.origin.x from_.origin.y (env.getYaw from_.rotation)
    to_.x to_.y to_.theta from_leg
  let footstep1 : StepTarget := { footstep with pose := { footstep.pose with x := fs.1 } }
  if from_leg = Leg.RIGHT then
    { pose := { footstep1.pose with y := fs.2.1, theta := fs.2.2 }, leg := StepTarget.left }
  else
    { pose := { footstep1.pose with y := -fs.2.1, theta := -fs.2.2 }, leg := StepTarget.right }

/-- The pair `c` is a feasibility check for the planned state `s`: its request
is the one `getFootstep` builds for `s` from some support-foot transform, and
its response is an answer of the clip service to that request. -/
def IsCheckFor (env : Env P) (s : State) (c : ClipFootstep) : Prop :=
  ∃ (from_ : Transform) (footstep : StepTarget) (h : List Event),
    c.request = getFootstepRequest env from_ s footstep ∧
    c.response = env.clipFootstep h c.request

/-- The world frame and the foot frame of every transform lookup, in order. -/
def lookupCalls (l : List Event) : List (String × String) :=
  l.filterMap fun e =>
    match e with
    | Event.lookupTransform world_frame_id foot_id _ => some (world_frame_id, foot_id)
    | _ => none

/-- The `double` nearest to 0.005. -/
def double_0_005 : Double := Double.finite 5764607523034235 (-60)

/-- The `double` nearest to 0.01. -/
def double_0_01 : Double := Double.finite 5764607523034235 (-59)

/-- The `double` nearest to 0.05. -/
def double_0_05 : Double := Double.finite 7205759403792794 (-57)

/-- The `double` nearest to 0.1. -/
def double_0_1 : Double := Double.finite 7205759403792794 (-56)

/-- The `double` nearest to -1e-25. -/
def double_neg_1em25 : Double := Double.finite (-8711228593176025) (-136)

/-- A navigation object as the constructor leaves it (default frame names and
tolerances) around a given planner and execution flag, with an empty history. -/
def navInit (planner : List State) (executing : Bool) : Nav (List State) :=
  { ivPlanner := planner, ivLastRobotTime := 0, ivFootIDRight := "/RFoot_link",
    ivFootIDLeft := "/LFoot_link", ivMapFrameID := "map", ivExecutingFootsteps := executing,
    ivAccuracyX := double_0_005, ivAccuracyY := double_0_005,
    ivAccuracyTheta := double_0_05, log := [] }

/-- The identity transform at the world origin. -/
def originTransform : Transform :=
  { origin := { x := 0, y := 0, z := 0 }, rotation := { x := 0, y := 0, z := 0, w := 1 } }

/-- A transform away from the origin. -/
def farTransform : Transform :=
  { origin := { x := 7, y := 8, z := 9 }, rotation := { x := 0, y := 0, z := 1, w := 0 } }

/-- The two-element path of the spec scenarios. -/
def scenarioPath : List State :=
  [{ x := 0, y := 0, theta := 0, leg := Leg.RIGHT },
   { x := double_0_1, y := double_0_05, theta := 0, leg := Leg.LEFT }]

/-- Collaborators for the scenarios.  The planner is the path it holds and
accepts every operation; every transform lookup answers `lookup`; the clip
service returns the request with `shift` added to its x. -/
def envScenario (lookup : Option Transform) (shift : Double) : Env (List State) :=
  { get_footstep := fun fx fy ft tx ty tt _ => (tx - fx, ty - fy, tt - ft)
    getYaw := fun q => q.z
    toFloat := fun q => q
    now := fun l => l.length
    lookupTransform := fun _ _ _ _ => lookup
    defaultStampedTransform := fun _ => originTransform
    defaultTransform := fun _ => originTransform
    clipFootstep := fun _ request =>
      { request with pose := { request.pose with x := request.pose.x - (-shift) } }
    plannerSetGoal := fun planner _ _ _ => (true, planner)
    plannerSetStart := fun planner _ _ => (true, planner)
    plannerPlan := fun planner => (true, planner)
    plannerReplan := fun planner => (true, planner)
    plannerPath := fun planner => planner }

/-! ## Effect of the member functions on the history -/

theorem performable_log (nav : Nav P) (l : List Event) (c : ClipFootstep) :
    performable { nav with log := l } c = performable nav c := rfl

theorem accepted_log (nav : Nav P) (l : List Event) :
    accepted { nav with log := l } = accepted nav := rfl

theorem getFootTransform_snd (env : Env P) (foot_id world_frame_id : String) (time : Nat)
    (foot : Transform) (nav : Nav P) :
    ∃ ev, (getFootTransform env foot_id world_frame_id time foot nav).2 =
        { nav with log := nav.log ++ ev } ∧
      actuationCalls ev = [] ∧ clipCalls ev = [] ∧ feasibilityChecks ev = [] ∧
      plannerCalls ev = [] := by
  cases h : env.lookupTransform nav.log world_frame_id foot_id time with
  | some t =>
    refine ⟨[Event.lookupTransform world_frame_id foot_id time], ?_, rfl, rfl, rfl, rfl⟩
    simp [getFootTransform, h, Nav.emit]
  | none =>
    refine ⟨[Event.lookupTransform world_frame_id foot_id time,
      Event.rosWarn "Failed to obtain FootTransform from tf (%s)"], ?_, rfl, rfl, rfl, rfl⟩
    simp [getFootTransform, h, Nav.emit]

theorem getFootstep_eq (env : Env P) (from_ : Transform) (to_ : State) (footstep : StepTarget)
    (nav : Nav P) :
    getFootstep env from_ to_ footstep nav =
      if performable nav
          { request := getFootstepRequest env from_ to_ footstep,
            response := env.clipFootstep nav.log (getFootstepRequest env from_ to_ footstep) }
      then
        (true,
          { pose := (env.clipFootstep nav.log (getFootstepRequest env from_ to_ footstep)).pose,
            leg := (getFootstepRequest env from_ to_ footstep).leg },
          { nav with log := nav.log ++
              [Event.clipFootstep ClipSite.getFootstep (getFootstepRequest env from_ to_ footstep)
                (env.clipFootstep nav.log (getFootstepRequest env from_ to_ footstep))] })
      else
        (false, getFootstepRequest env from_ to_ footstep,
          { nav with log := nav.log ++
              [Event.clipFootstep ClipSite.getFootstep (getFootstepRequest env from_ to_ footstep)
                (env.clipFootstep nav.log (getFootstepRequest env from_ to_ footstep))] }) :=
  rfl

theorem getFootstepRequest_leg (env : Env P) (from_ : Transform) (to_ : State)
    (footstep : StepTarget) :
    (getFootstepRequest env from_ to_ footstep).leg = stepLeg to_.leg := by
  cases hl : to_.leg <;> simp [getFootstepRequest, stepLeg, hl]

theorem getFootstep_spec (env : Env P) (from_ : Transform) (to_ : State) (footstep : StepTarget)
    (nav : Nav P) :
    ∃ c : ClipFootstep,
      (getFootstep env from_ to_ footstep nav).2.2 =
        { nav with log := nav.log ++
            [Event.clipFootstep ClipSite.getFootstep c.request c.response] } ∧
      (getFootstep env from_ to_ footstep nav).1 = performable nav c ∧
      c.request.leg = stepLeg to_.leg ∧
      IsCheckFor env to_ c ∧
      (performable nav c = true →
        (getFootstep env from_ to_ footstep nav).2.1 =
          { pose := c.response.pose, leg := c.request.leg }) := by
  refine ⟨{ request := getFootstepRequest env from_ to_ footstep,
            response := env.clipFootstep nav.log (getFootstepRequest env from_ to_ footstep) },
    ?_, ?_, getFootstepRequest_leg env from_ to_ footstep,
    ⟨from_, footstep, nav.log, rfl, rfl⟩, ?_⟩
  · rw [getFootstep_eq]
    split <;> rfl
  · rw [getFootstep_eq]
    split
    · next h => exact h.symm
    · next h => simpa using h
  · intro hp
    rw [getFootstep_eq, if_pos hp]

theorem debugFootstepExecution_spec (env : Env P) (from_ : Transform)
    (from_planned to_planned : State) (nav : Nav P) :
    ∃ ev, debugFootstepExecution env from_ from_planned to_planned nav =
        { nav with log := nav.log ++ ev } ∧
      actuationCalls ev = [] ∧ (clipCalls ev).length = 1 ∧ feasibilityChecks ev = [] ∧
      plannerCalls ev = [] := by
  apply Exists.intro
  apply And.intro
  · simp only [debugFootstepExecution, Nav.emit, List.append_assoc]
    rfl
  · simp [actuationCalls, clipCalls, feasibilityChecks, plannerCalls]

theorem actuationCalls_append (l₁ l₂ : List Event) :
    actuationCalls (l₁ ++ l₂) = actuationCalls l₁ ++ actuationCalls l₂ := by
  simp [actuationCalls]

theorem feasibilityChecks_append (l₁ l₂ : List Event) :
    feasibilityChecks (l₁ ++ l₂) = feasibilityChecks l₁ ++ feasibilityChecks l₂ := by
  simp [feasibilityChecks]

theorem clipCalls_append (l₁ l₂ : List Event) :
    clipCalls (l₁ ++ l₂) = clipCalls l₁ ++ clipCalls l₂ := by
  simp [clipCalls]

theorem plannerCalls_append (l₁ l₂ : List Event) :
    plannerCalls (l₁ ++ l₂) = plannerCalls l₁ ++ plannerCalls l₂ := by
  simp [plannerCalls]

/-- One iteration of the loop of `executeFootsteps`: the events of the
iteration hold exactly one feasibility check `c` and two clip calls; the
iteration either sends the accepted step and goes on, or exits. -/
theorem executeFootstepsLoop_cons (env : Env P) (to_planned : State) (rest : List State)
    (from_planned : State) (from_ : Transform) (step : StepTarget) (nav : Nav P) :
    ∃ (ev : List Event) (c : ClipFootstep) (from1 : Transform),
      actuationCalls ev = [] ∧ feasibilityChecks ev = [c] ∧ (clipCalls ev).length = 2 ∧
      plannerCalls ev = [] ∧ c.request.leg = stepLeg to_planned.leg ∧
      IsCheckFor env to_planned c ∧
      executeFootstepsLoop env (to_planned :: rest) from_planned from_ step nav =
        if performable nav c = true then
          executeFootstepsLoop env rest to_planned from1
            { pose := c.response.pose, leg := c.request.leg }
            { nav with log := nav.log ++
                (ev ++ [Event.footstep { pose := c.response.pose, leg := c.request.leg }]) }
        else
          { nav := { nav with log := nav.log ++
                (ev ++ [Event.rosInfo "Footstep cannot be performed: new path planning necessary",
                  Event.exit]) },
            exited := true } := by
  obtain ⟨ev1, h1, a1, k1, f1, p1⟩ := getFootTransform_snd env
    (if to_planned.leg = Leg.LEFT then nav.ivFootIDRight else nav.ivFootIDLeft)
    nav.ivMapFrameID (env.now nav.log) from_ nav
  generalize hr1 : getFootTransform env
    (if to_planned.leg = Leg.LEFT then nav.ivFootIDRight else nav.ivFootIDLeft)
    nav.ivMapFrameID (env.now nav.log) from_ nav = r1 at h1
  obtain ⟨c, h2, hb, hleg, hchk, hs⟩ := getFootstep_spec env r1.1 to_planned
    (if to_planned.leg = Leg.LEFT then { step with leg := StepTarget.left }
      else { step with leg := StepTarget.right }) r1.2
  generalize hr2 : getFootstep env r1.1 to_planned
    (if to_planned.leg = Leg.LEFT then { step with leg := StepTarget.left }
      else { step with leg := StepTarget.right }) r1.2 = r2 at h2 hb hs
  obtain ⟨ev3, h3, a3, k3, f3, p3⟩ :=
    debugFootstepExecution_spec env r1.1 from_planned to_planned r2.2.2
  rw [h1, performable_log] at hb hs
  refine ⟨ev1 ++ ([Event.clipFootstep ClipSite.getFootstep c.request c.response] ++ ev3), c, r1.1,
    ?_, ?_, ?_, ?_, hleg, hchk, ?_⟩
  · rw [actuationCalls_append, actuationCalls_append, a1, a3]
    rfl
  · rw [feasibilityChecks_append, feasibilityChecks_append, f1, f3]
    rfl
  · rw [clipCalls_append, clipCalls_append, k1, List.nil_append, List.length_append, k3]
    rfl
  · rw [plannerCalls_append, plannerCalls_append, p1, p3]
    rfl
  · simp only [executeFootstepsLoop]
    rw [hr1, hr2, h3, h2, h1, hb]
    by_cases hp : performable nav c = true
    · rw [if_pos hp, if_neg (by simp [hp]), hs hp]
      simp [Nav.emit, List.append_assoc]
    · rw [if_neg hp, if_pos (by simpa using hp)]
      simp [Nav.emit, List.append_assoc]

/-- What the loop of `executeFootsteps` does to the history, for every
remaining path and every behaviour of the collaborators. -/
theorem executeFootstepsLoop_spec (env : Env P) :
    ∀ (rest : List State) (from_planned : State) (from_ : Transform) (step : StepTarget)
      (nav : Nav P),
    ∃ issued : List Event,
      (executeFootstepsLoop env rest from_planned from_ step nav).nav.log = nav.log ++ issued ∧
      (executeFootstepsLoop env rest from_planned from_ step nav).nav.ivPlanner = nav.ivPlanner ∧
      actuationCalls issued = (feasibilityChecks issued).filterMap (accepted nav) ∧
      plannerCalls issued = [] ∧
      ((executeFootstepsLoop env rest from_planned from_ step nav).exited = false →
        (feasibilityChecks issued).map (fun c => c.request.leg) =
          rest.map (fun s => stepLeg s.leg) ∧
        List.Forall₂ (fun c s => IsCheckFor env s c) (feasibilityChecks issued) rest ∧
        (∀ c ∈ feasibilityChecks issued, performable nav c = true) ∧
        (clipCalls issued).length = 2 * rest.length ∧
        (executeFootstepsLoop env rest from_planned from_ step nav).nav.ivExecutingFootsteps
          = false) ∧
      ((executeFootstepsLoop env rest from_planned from_ step nav).exited = true →
        (∃ cs c, feasibilityChecks issued = cs ++ [c] ∧
          (∀ d ∈ cs, performable nav d = true) ∧ performable nav c = false) ∧
        issued.getLast? = some Event.exit ∧
        (executeFootstepsLoop env rest from_planned from_ step nav).nav.ivExecutingFootsteps
          = nav.ivExecutingFootsteps) := by
  intro rest
  induction rest with
  | nil =>
    intro from_planned from_ step nav
    refine ⟨[], ?_, rfl, rfl, rfl, ?_, ?_⟩
    · simp [executeFootstepsLoop]
    · intro _
      exact ⟨rfl, List.Forall₂.nil, by simp [feasibilityChecks], rfl, rfl⟩
    · intro h
      simp [executeFootstepsLoop] at h
  | cons to_planned rest ih =>
    intro from_planned from_ step nav
    obtain ⟨ev, c, from1, a, f, k, p, hleg, hchk, heq⟩ :=
      executeFootstepsLoop_cons env to_planned rest from_planned from_ step nav
    rw [heq]
    by_cases hp : performable nav c = true
    · rw [if_pos hp]
      obtain ⟨issued, hlog, hpl, hact, hplan, hok, hex⟩ := ih to_planned from1
        { pose := c.response.pose, leg := c.request.leg }
        { nav with log := nav.log ++
            (ev ++ [Event.footstep { pose := c.response.pose, leg := c.request.leg }]) }
      rw [accepted_log] at hact
      simp only [performable_log] at hok hex
      have hacc : accepted nav c = some { pose := c.response.pose, leg := c.request.leg } := by
        simp [accepted, hp]
      refine ⟨ev ++ [Event.footstep { pose := c.response.pose, leg := c.request.leg }] ++ issued,
        ?_, hpl, ?_, ?_, ?_, ?_⟩
      · rw [hlog]
        simp [List.append_assoc]
      · rw [actuationCalls_append, actuationCalls_append, feasibilityChecks_append,
          feasibilityChecks_append, a, f, hact]
        simp [actuationCalls, feasibilityChecks, hacc]
      · rw [plannerCalls_append, plannerCalls_append, p, hplan]
        rfl
      · intro hE
        obtain ⟨h1, hall, h2, h3, h4⟩ := hok hE
        refine ⟨?_, ?_, ?_, ?_, h4⟩
        · rw [feasibilityChecks_append, feasibilityChecks_append, f,
            show feasibilityChecks [Event.footstep
              { pose := c.response.pose, leg := c.request.leg }] = [] from rfl]
          simp [h1, hleg]
        · rw [feasibilityChecks_append, feasibilityChecks_append, f,
            show feasibilityChecks [Event.footstep
              { pose := c.response.pose, leg := c.request.leg }] = [] from rfl]
          exact List.Forall₂.cons hchk hall
        · rw [feasibilityChecks_append, feasibilityChecks_append, f,
            show feasibilityChecks [Event.footstep
              { pose := c.response.pose, leg := c.request.leg }] = [] from rfl]
          intro d hd
          simp only [List.append_nil, List.singleton_append, List.mem_cons] at hd
          rcases hd with hd | hd
          · rw [hd]
            exact hp
          · exact h2 d hd
        · rw [clipCalls_append, clipCalls_append, List.length_append, List.length_append, k, h3,
            show clipCalls [Event.footstep
              { pose := c.response.pose, leg := c.request.leg }] = [] from rfl]
          simp only [List.length_nil, List.length_cons]
          omega
      · intro hE
        obtain ⟨⟨cs, c', h1, h2, h3⟩, h4, h5⟩ := hex hE
        refine ⟨⟨c :: cs, c', ?_, ?_, h3⟩, ?_, h5⟩
        · rw [feasibilityChecks_append, feasibilityChecks_append, f, h1,
            show feasibilityChecks [Event.footstep
              { pose := c.response.pose, leg := c.request.leg }] = [] from rfl]
          simp
        · intro d hd
          rcases List.mem_cons.mp hd with hd | hd
          · rw [hd]
            exact hp
          · exact h2 d hd
        · have hne : issued ≠ [] := by
            intro h0
            rw [h0] at h4
            simp at h4
          rw [List.getLast?_append_of_ne_nil _ hne]
          exact h4
    · rw [if_neg hp]
      have hpf : performable nav c = false := by simpa using hp
      have hacc : accepted nav c = none := by
        simp [accepted, hpf]
      refine ⟨ev ++ [Event.rosInfo "Footstep cannot be performed: new path planning necessary",
        Event.exit], rfl, rfl, ?_, ?_, ?_, ?_⟩
      · rw [actuationCalls_append, feasibilityChecks_append, a, f]
        simp [actuationCalls, feasibilityChecks, hacc]
      · rw [plannerCalls_append, p]
        rfl
      · intro hE
        simp at hE
      · intro _
        refine ⟨⟨[], c, ?_, ?_, hpf⟩, ?_, rfl⟩
        · rw [feasibilityChecks_append, f]
          simp [feasibilityChecks]
        · intro d hd
          simp at hd
        · simp

theorem issuedBy_eq (nav : Nav P) (r : Run P) (issued : List Event)
    (h : r.nav.log = nav.log ++ issued) : issuedBy nav r = issued := by
  rw [issuedBy, h, List.drop_left]

theorem executeFootsteps_nil (env : Env P) (nav : Nav P)
    (h : env.plannerPath nav.ivPlanner = []) :
    executeFootsteps env nav = { nav := nav, exited := false } := by
  simp [executeFootsteps, h]

theorem executeFootsteps_cons (env : Env P) (nav : Nav P) (from_planned : State)
    (rest : List State) (h : env.plannerPath nav.ivPlanner = from_planned :: rest) :
    executeFootsteps env nav =
      executeFootstepsLoop env rest from_planned (env.defaultTransform nav.log)
        { pose := { x := 0, y := 0, theta := 0 }, leg := 0 } nav := by
  simp [executeFootsteps, h]

/-- What one run of `executeFootsteps` appends to the history. -/
theorem executeFootsteps_spec (env : Env P) (nav : Nav P) :
    (executeFootsteps env nav).nav.log =
      nav.log ++ issuedBy nav (executeFootsteps env nav) ∧
    (executeFootsteps env nav).nav.ivPlanner = nav.ivPlanner ∧
    actuationCalls (issuedBy nav (executeFootsteps env nav)) =
      (feasibilityChecks (issuedBy nav (executeFootsteps env nav))).filterMap (accepted nav) ∧
    plannerCalls (issuedBy nav (executeFootsteps env nav)) = [] ∧
    ((executeFootsteps env nav).exited = false →
      (feasibilityChecks (issuedBy nav (executeFootsteps env nav))).map
          (fun c => c.request.leg) =
        (env.plannerPath nav.ivPlanner).tail.map (fun s => stepLeg s.leg) ∧
      List.Forall₂ (fun c s => IsCheckFor env s c)
        (feasibilityChecks (issuedBy nav (executeFootsteps env nav)))
        (env.plannerPath nav.ivPlanner).tail ∧
      (∀ c ∈ feasibilityChecks (issuedBy nav (executeFootsteps env nav)),
        performable nav c = true) ∧
      (clipCalls (issuedBy nav (executeFootsteps env nav))).length =
        2 * (env.plannerPath nav.ivPlanner).tail.length ∧
      (env.plannerPath nav.ivPlanner ≠ [] →
        (executeFootsteps env nav).nav.ivExecutingFootsteps = false)) ∧
    ((executeFootsteps env nav).exited = true →
      (∃ cs c, feasibilityChecks (issuedBy nav (executeFootsteps env nav)) = cs ++ [c] ∧
        (∀ d ∈ cs, performable nav d = true) ∧ performable nav c = false) ∧
      (issuedBy nav (executeFootsteps env nav)).getLast? = some Event.exit ∧
      (executeFootsteps env nav).nav.ivExecutingFootsteps = nav.ivExecutingFootsteps) := by
  cases hpath : env.plannerPath nav.ivPlanner with
  | nil =>
    have hrun := executeFootsteps_nil env nav hpath
    have hiss : issuedBy nav (executeFootsteps env nav) = [] := by
      rw [hrun]
      simp [issuedBy]
    rw [hiss, hrun]
    refine ⟨by simp, rfl, rfl, rfl, ?_, ?_⟩
    · intro _
      exact ⟨rfl, List.Forall₂.nil, by simp [feasibilityChecks], rfl, fun h => absurd rfl h⟩
    · intro h
      simp at h
  | cons from_planned rest =>
    have hrun := executeFootsteps_cons env nav from_planned rest hpath
    obtain ⟨issued, hlog, hpl, hact, hplan, hok, hex⟩ :=
      executeFootstepsLoop_spec env rest from_planned (env.defaultTransform nav.log)
        { pose := { x := 0, y := 0, theta := 0 }, leg := 0 } nav
    rw [← hrun] at hlog hpl hok hex
    have hiss := issuedBy_eq nav (executeFootsteps env nav) issued hlog
    rw [hiss]
    refine ⟨hlog, hpl, hact, hplan, ?_, hex⟩
    intro hE
    obtain ⟨h1, h2, h3, h4, h5⟩ := hok hE
    exact ⟨h1, h2, h3, h4, fun _ => h5⟩

/-- What `updateStart` does: two foot lookups, then always one `setStart`
call on the planner, whose result is returned. -/
theorem updateStart_spec (env : Env P) (nav : Nav P) :
    ∃ (ev : List Event) (right left : State),
      plannerCalls ev = [] ∧
      (updateStart env nav).1 = (env.plannerSetStart nav.ivPlanner right left).1 ∧
      (updateStart env nav).2 =
        { nav with
          ivPlanner := (env.plannerSetStart nav.ivPlanner right left).2
          log := nav.log ++ (ev ++ [Event.plannerSetStart right left]) } := by
  obtain ⟨ev1, h1, _, _, _, p1⟩ := getFootTransform_snd env nav.ivFootIDLeft nav.ivMapFrameID
    nav.ivLastRobotTime (env.defaultTransform nav.log) nav
  generalize hr1 : getFootTransform env nav.ivFootIDLeft nav.ivMapFrameID
    nav.ivLastRobotTime (env.defaultTransform nav.log) nav = r1 at h1
  obtain ⟨ev2, h2, _, _, _, p2⟩ := getFootTransform_snd env nav.ivFootIDRight nav.ivMapFrameID
    nav.ivLastRobotTime (env.defaultTransform nav.log) r1.2
  generalize hr2 : getFootTransform env nav.ivFootIDRight nav.ivMapFrameID
    nav.ivLastRobotTime (env.defaultTransform nav.log) r1.2 = r2 at h2
  rw [h1] at h2
  refine ⟨ev1 ++ ev2,
    { x := r2.1.origin.x, y := r2.1.origin.y, theta := env.getYaw r2.1.rotation,
      leg := Leg.RIGHT },
    { x := r1.1.origin.x, y := r1.1.origin.y, theta := env.getYaw r1.1.rotation,
      leg := Leg.LEFT }, ?_, ?_, ?_⟩
  · rw [plannerCalls_append, p1, p2]
    rfl
  · simp only [updateStart]
    rw [hr1, hr2, h2]
  · simp only [updateStart]
    rw [hr1, hr2, h2]
    simp [Nav.emit, List.append_assoc]

/-- What `setGoal` does: one `setGoal` call on the planner with the goal
position and yaw converted to `float`. -/
theorem setGoal_snd (env : Env P) (goal_pose : PoseStamped) (nav : Nav P) :
    (setGoal env goal_pose nav).2 =
      { nav with
        ivPlanner := (env.plannerSetGoal nav.ivPlanner (env.toFloat goal_pose.position.x)
          (env.toFloat goal_pose.position.y)
          (env.toFloat (env.getYaw goal_pose.orientation))).2
        log := nav.log ++ [Event.plannerSetGoal (env.toFloat goal_pose.position.x)
          (env.toFloat goal_pose.position.y)
          (env.toFloat (env.getYaw goal_pose.orientation))] } :=
  rfl

/-! ## The claims -/

/-- C1 as stated fails: with request x = 0.005, response x = -1e-25 and the
default tolerance 0.005 (y, theta and leg equal), the exact difference of the
two x values is larger than the tolerance, yet `performable` returns true,
because the subtraction rounds the difference to 0.005. -/
theorem performable_accepts_difference_above_tolerance :
    performable (navInit [] false)
      { request := { pose := { x := double_0_005, y := 0, theta := 0 }, leg := 1 },
        response := { pose := { x := double_neg_1em25, y := 0, theta := 0 }, leg := 1 } }
      = true ∧
    (navInit [] false).ivAccuracyX.toRat <
      |double_0_005.toRat - double_neg_1em25.toRat| := by
  refine ⟨?_, ?_⟩
  · set_option maxRecDepth 100000 in decide
  · norm_num [navInit, double_0_005, double_neg_1em25, Double.toRat, abs_of_pos]

/-- C1, amended: `performable` returns true exactly when, in `double`
arithmetic, `fabs(request - response) <= tolerance` holds for x, for y and
for theta (each difference is the rounded result of the subtraction, and the
comparison is false on NaN) and the legs are equal; hence it is false as soon
as one of the three comparisons fails, whatever the other components and the
legs are. -/
theorem performable_iff (nav : Nav P) (step : ClipFootstep) :
    (performable nav step = true ↔
      (Double.le (Double.fabs (step.request.pose.x - step.response.pose.x))
          nav.ivAccuracyX = true ∧
       Double.le (Double.fabs (step.request.pose.y - step.response.pose.y))
          nav.ivAccuracyY = true ∧
       Double.le (Double.fabs (step.request.pose.theta - step.response.pose.theta))
          nav.ivAccuracyTheta = true ∧
       step.request.leg = step.response.leg)) ∧
    ((Double.le (Double.fabs (step.request.pose.x - step.response.pose.x))
          nav.ivAccuracyX = false ∨
      Double.le (Double.fabs (step.request.pose.y - step.response.pose.y))
          nav.ivAccuracyY = false ∨
      Double.le (Double.fabs (step.request.pose.theta - step.response.pose.theta))
          nav.ivAccuracyTheta = false) →
      performable nav step = false) := by
  have key : performable nav step = true ↔
      (Double.le (Double.fabs (step.request.pose.x - step.response.pose.x))
          nav.ivAccuracyX = true ∧
       Double.le (Double.fabs (step.request.pose.y - step.response.pose.y))
          nav.ivAccuracyY = true ∧
       Double.le (Double.fabs (step.request.pose.theta - step.response.pose.theta))
          nav.ivAccuracyTheta = true ∧
       step.request.leg = step.response.leg) := by
    simp [performable, and_assoc]
  refine ⟨key, ?_⟩
  intro h
  cases hp : performable nav step with
  | false => rfl
  | true =>
    obtain ⟨hx, hy, ht, _⟩ := key.mp hp
    rcases h with h | h | h
    · rw [hx] at h
      exact absurd h (by decide)
    · rw [hy] at h
      exact absurd h (by decide)
    · rw [ht] at h
      exact absurd h (by decide)

/-- Witness for C1, amended: a response whose x is 0.09 for a request x of
0.1 gives a computed difference above the default tolerance 0.005, so the
check is not performable although y, theta and the leg agree. -/
theorem performable_iff_witness :
    performable (navInit [] false)
      { request := { pose := { x := double_0_1, y := 0, theta := 0 }, leg := 1 },
        response := { pose := { x := Double.finite 6485183463413514 (-56), y := 0, theta := 0 },
                      leg := 1 } } = false :=
  (performable_iff (navInit [] false)
      { request := { pose := { x := double_0_1, y := 0, theta := 0 }, leg := 1 },
        response := { pose := { x := Double.finite 6485183463413514 (-56), y := 0, theta := 0 },
                      leg := 1 } }).2
    (Or.inl (by decide))

/-- C2: in every run of `executeFootsteps`, whatever the path, the pose source
and the clip service do, the run only appends to the history, and the steps
sent to actuation are, in order, exactly
the feasibility checks of `getFootstep` that were judged performable, each sent
with the x, y and theta of the clipped response and the leg of the request; a
check judged not performable sends nothing. -/
theorem executeFootsteps_sends_clipped (env : Env P) (nav : Nav P) :
    (executeFootsteps env nav).nav.log =
      nav.log ++ issuedBy nav (executeFootsteps env nav) ∧
    actuationCalls (issuedBy nav (executeFootsteps env nav)) =
      (feasibilityChecks (issuedBy nav (executeFootsteps env nav))).filterMap
        (fun c => if performable nav c = true
          then some { pose := { x := c.response.pose.x, y := c.response.pose.y,
                                theta := c.response.pose.theta },
                      leg := c.request.leg }
          else none) ∧
    ∀ step ∈ actuationCalls (issuedBy nav (executeFootsteps env nav)),
      ∃ c ∈ feasibilityChecks (issuedBy nav (executeFootsteps env nav)),
        performable nav c = true ∧ step.pose = c.response.pose ∧ step.leg = c.request.leg := by
  have h := (executeFootsteps_spec env nav).2.2.1
  refine ⟨(executeFootsteps_spec env nav).1, h, ?_⟩
  intro step hstep
  rw [h, List.mem_filterMap] at hstep
  obtain ⟨c, hc, hacc⟩ := hstep
  refine ⟨c, hc, ?_⟩
  by_cases hp : performable nav c = true
  · simp only [accepted, hp, if_true, Option.some.injEq] at hacc
    rw [← hacc]
    exact ⟨hp, rfl, rfl⟩
  · simp [accepted, hp] at hacc

/-- C3: on a path of length N at least 1 whose feasibility checks are all
judged performable, `executeFootsteps` sends exactly N-1 steps to actuation,
one for each path element after the first and in path order: the k-th step
sent is the clipped response of a feasibility check made for the k-th
element of the tail of the path and carries that element's leg.  Nothing is
sent for the first element. -/
theorem executeFootsteps_actuation_count (env : Env P) (nav : Nav P) (path : List State)
    (hpath : env.plannerPath nav.ivPlanner = path) (_hN : 1 ≤ path.length)
    (hperf : (feasibilityChecks (issuedBy nav (executeFootsteps env nav))).all
      (performable nav) = true) :
    (actuationCalls (issuedBy nav (executeFootsteps env nav))).length = path.length - 1 ∧
    List.Forall₂
      (fun step s => step.leg = stepLeg s.leg ∧
        ∃ c, IsCheckFor env s c ∧ performable nav c = true ∧
          step = { pose := c.response.pose, leg := c.request.leg })
      (actuationCalls (issuedBy nav (executeFootsteps env nav))) path.tail := by
  obtain ⟨_, _, hact, _, hok, hex⟩ := executeFootsteps_spec env nav
  have hE : (executeFootsteps env nav).exited = false := by
    cases hx : (executeFootsteps env nav).exited with
    | false => rfl
    | true =>
      obtain ⟨⟨cs, c, h1, _, h3⟩, _⟩ := hex hx
      rw [h1, List.all_eq_true] at hperf
      have := hperf c (by simp)
      rw [h3] at this
      exact absurd this (by simp)
  obtain ⟨hlegs, hall, hp, _, _⟩ := hok hE
  rw [hpath] at hlegs hall
  have hmap : actuationCalls (issuedBy nav (executeFootsteps env nav)) =
      (feasibilityChecks (issuedBy nav (executeFootsteps env nav))).map
        (fun c => { pose := c.response.pose, leg := c.request.leg }) := by
    rw [hact]
    generalize feasibilityChecks (issuedBy nav (executeFootsteps env nav)) = cs at hp
    induction cs with
    | nil => rfl
    | cons c cs ih =>
      have hc : accepted nav c = some { pose := c.response.pose, leg := c.request.leg } := by
        simp [accepted, hp c (List.mem_cons_self c cs)]
      rw [List.filterMap_cons_some hc, List.map_cons,
        ih (fun d hd => hp d (List.mem_cons_of_mem c hd))]
  refine ⟨?_, ?_⟩
  · rw [hmap, List.length_map, ← List.length_map _ (fun c : ClipFootstep => c.request.leg), hlegs,
      List.length_map, List.length_tail]
  · rw [hmap, List.forall₂_map_left_iff]
    have hlegs2 : List.Forall₂ (fun (c : ClipFootstep) (s : State) => c.request.leg = stepLeg s.leg)
        (feasibilityChecks (issuedBy nav (executeFootsteps env nav))) path.tail := by
      rw [← List.forall₂_eq_eq_eq, List.forall₂_map_left_iff, List.forall₂_map_right_iff] at hlegs
      exact hlegs
    generalize feasibilityChecks (issuedBy nav (executeFootsteps env nav)) = cs
      at hp hall hlegs2
    generalize path.tail = ss at hall hlegs2
    induction cs generalizing ss with
    | nil =>
      cases hall
      exact List.Forall₂.nil
    | cons c cs ih =>
      cases hall with
      | cons hcs hall1 =>
        cases hlegs2 with
        | cons hl hrest =>
          exact List.Forall₂.cons ⟨hl, c, hcs, hp c (List.mem_cons_self c cs), rfl⟩
            (ih (fun d hd => hp d (List.mem_cons_of_mem c hd)) _ hall1 hrest)

/-- Witness for C3: the two-element scenario path, with the support foot at
the origin and a clip service that returns the request unchanged, yields
exactly one actuation call. -/
theorem executeFootsteps_actuation_count_witness :
    (actuationCalls (issuedBy (navInit scenarioPath true)
        (executeFootsteps (envScenario (some originTransform) 0)
          (navInit scenarioPath true)))).length = 2 - 1 :=
  (executeFootsteps_actuation_count (envScenario (some originTransform) 0)
    (navInit scenarioPath true) scenarioPath rfl (by decide)
    (by decide)).1

/-- C4: on the scenario path with a clip service whose response differs from
the request by 0.01 in x (above the tolerance 0.005), `executeFootsteps` sends
nothing to actuation and terminates the process with `exit(0)`: no start
update, no replan and no new execution happen, and the execution flag is
still set. -/
theorem executeFootsteps_rejected_step_exits :
    (executeFootsteps (envScenario (some originTransform) double_0_01)
      (navInit scenarioPath true)).exited = true ∧
    actuationCalls (issuedBy (navInit scenarioPath true)
      (executeFootsteps (envScenario (some originTransform) double_0_01)
        (navInit scenarioPath true))) = [] ∧
    plannerCalls (issuedBy (navInit scenarioPath true)
      (executeFootsteps (envScenario (some originTransform) double_0_01)
        (navInit scenarioPath true))) = [] ∧
    (issuedBy (navInit scenarioPath true)
      (executeFootsteps (envScenario (some originTransform) double_0_01)
        (navInit scenarioPath true))).getLast? = some Event.exit ∧
    (executeFootsteps (envScenario (some originTransform) double_0_01)
      (navInit scenarioPath true)).nav.ivExecutingFootsteps = true := by
  have hx : (executeFootsteps (envScenario (some originTransform) double_0_01)
      (navInit scenarioPath true)).exited = true := by
    decide
  obtain ⟨_, _, hact, hplan, _, hex⟩ :=
    executeFootsteps_spec (envScenario (some originTransform) double_0_01)
      (navInit scenarioPath true)
  obtain ⟨_, hlast, hflag⟩ := hex hx
  refine ⟨hx, ?_, hplan, hlast, hflag⟩
  decide

/-- C5: when the execution flag is set, `goalPoseCallback` only writes its log
line: the planner, the flag and every other member keep their value, and
neither a planner operation nor a lookup nor a thread start is issued. -/
theorem goalPoseCallback_busy (env : Env P) (goal_pose : PoseStamped) (nav : Nav P)
    (h : nav.ivExecutingFootsteps = true) :
    goalPoseCallback env goal_pose nav =
      { nav with log := nav.log ++
          [Event.rosInfo "currently walking down a footstep path; no planning possible"] } ∧
    (goalPoseCallback env goal_pose nav).ivPlanner = nav.ivPlanner ∧
    env.plannerPath (goalPoseCallback env goal_pose nav).ivPlanner =
      env.plannerPath nav.ivPlanner ∧
    (goalPoseCallback env goal_pose nav).ivExecutingFootsteps = true := by
  have h1 : goalPoseCallback env goal_pose nav =
      { nav with log := nav.log ++
          [Event.rosInfo "currently walking down a footstep path; no planning possible"] } := by
    simp [goalPoseCallback, h, Nav.emit]
  rw [h1]
  exact ⟨rfl, rfl, rfl, h⟩

/-- Witness for C5: a goal arriving while the scenario path is being walked. -/
theorem goalPoseCallback_busy_witness :
    (goalPoseCallback (envScenario (some originTransform) 0)
        { position := { x := 1, y := 2, z := 0 }, orientation := { x := 0, y := 0, z := 0, w := 1 } }
        (navInit scenarioPath true)).ivPlanner = scenarioPath :=
  (goalPoseCallback_busy (envScenario (some originTransform) 0)
    { position := { x := 1, y := 2, z := 0 }, orientation := { x := 0, y := 0, z := 0, w := 1 } }
    (navInit scenarioPath true) rfl).2.1

/-- C6: when the execution flag is clear, `goalPoseCallback` calls `setGoal`,
then `updateStart` (which calls the planner's `setStart`), then `plan`, each
only if the calls before it returned true; the flag ends up true, and the
execution thread is started, exactly when all three returned true, and in
every other case the flag stays false and no thread is started. -/
theorem goalPoseCallback_idle (env : Env P) (goal_pose : PoseStamped) (nav : Nav P)
    (h : nav.ivExecutingFootsteps = false) :
    (goalPoseCallback env goal_pose nav).ivExecutingFootsteps =
      ((setGoal env goal_pose nav).1 && (updateStart env (setGoal env goal_pose nav).2).1 &&
        (env.plannerPlan (updateStart env (setGoal env goal_pose nav).2).2.ivPlanner).1) ∧
    ∃ (right left : State),
      plannerCalls ((goalPoseCallback env goal_pose nav).log.drop nav.log.length) =
        if (setGoal env goal_pose nav).1 = false then
          [Event.plannerSetGoal (env.toFloat goal_pose.position.x)
            (env.toFloat goal_pose.position.y) (env.toFloat (env.getYaw goal_pose.orientation))]
        else if (updateStart env (setGoal env goal_pose nav).2).1 = false then
          [Event.plannerSetGoal (env.toFloat goal_pose.position.x)
            (env.toFloat goal_pose.position.y) (env.toFloat (env.getYaw goal_pose.orientation)),
           Event.plannerSetStart right left]
        else if (env.plannerPlan
            (updateStart env (setGoal env goal_pose nav).2).2.ivPlanner).1 = false then
          [Event.plannerSetGoal (env.toFloat goal_pose.position.x)
            (env.toFloat goal_pose.position.y) (env.toFloat (env.getYaw goal_pose.orientation)),
           Event.plannerSetStart right left, Event.plannerPlan]
        else
          [Event.plannerSetGoal (env.toFloat goal_pose.position.x)
            (env.toFloat goal_pose.position.y) (env.toFloat (env.getYaw goal_pose.orientation)),
           Event.plannerSetStart right left, Event.plannerPlan, Event.threadExecuteFootsteps] := by
  obtain ⟨ev, right, left, pev, hb, hnav⟩ := updateStart_spec env (setGoal env goal_pose nav).2
  have hflag : (updateStart env (setGoal env goal_pose nav).2).2.ivExecutingFootsteps = false := by
    rw [hnav, setGoal_snd]
    exact h
  have hlog : (updateStart env (setGoal env goal_pose nav).2).2.log =
      nav.log ++ ([Event.plannerSetGoal (env.toFloat goal_pose.position.x)
        (env.toFloat goal_pose.position.y) (env.toFloat (env.getYaw goal_pose.orientation))] ++
        (ev ++ [Event.plannerSetStart right left])) := by
    rw [hnav, setGoal_snd]
    simp [List.append_assoc]
  have hlog1 : (setGoal env goal_pose nav).2.log =
      nav.log ++ [Event.plannerSetGoal (env.toFloat goal_pose.position.x)
        (env.toFloat goal_pose.position.y) (env.toFloat (env.getYaw goal_pose.orientation))] := by
    rw [setGoal_snd]
  have hflag1 : (setGoal env goal_pose nav).2.ivExecutingFootsteps = false := by
    rw [setGoal_snd]
    exact h
  refine ⟨?_, right, left, ?_⟩
  · simp only [goalPoseCallback, h]
    cases h1 : (setGoal env goal_pose nav).1
    · simp [hflag1]
    · cases h2 : (updateStart env (setGoal env goal_pose nav).2).1
      · simp [Nav.emit, hflag]
      · cases h3 : (env.plannerPlan (updateStart env (setGoal env goal_pose nav).2).2.ivPlanner).1
        · simp [Nav.emit, hflag]
        · simp [Nav.emit]
  · simp only [goalPoseCallback, h]
    cases h1 : (setGoal env goal_pose nav).1
    · simp only [Bool.false_eq_true, if_false, if_true, hlog1, List.drop_left]
      rfl
    · cases h2 : (updateStart env (setGoal env goal_pose nav).2).1
      · simp only [Bool.false_eq_true, if_false, if_true, Nav.emit, hlog, List.drop_left,
          ← List.append_assoc]
        simp only [List.append_assoc, List.drop_left, plannerCalls_append, pev]
        simp [plannerCalls]
      · cases h3 : (env.plannerPlan (updateStart env (setGoal env goal_pose nav).2).2.ivPlanner).1
        · simp only [Bool.false_eq_true, if_false, if_true, Nav.emit, hlog, List.drop_left,
            List.append_assoc, plannerCalls_append, pev]
          simp [plannerCalls]
        · simp only [Bool.false_eq_true, if_false, if_true, Nav.emit, hlog, List.drop_left,
            List.append_assoc, plannerCalls_append, pev]
          simp [plannerCalls]

/-- Witness for C6: with collaborators that accept everything, a goal that
arrives while the flag is clear sets the flag. -/
theorem goalPoseCallback_idle_witness :
    (goalPoseCallback (envScenario (some originTransform) 0)
        { position := { x := 1, y := 2, z := 0 }, orientation := { x := 0, y := 0, z := 0, w := 1 } }
        (navInit scenarioPath false)).ivExecutingFootsteps =
      ((setGoal (envScenario (some originTransform) 0)
          { position := { x := 1, y := 2, z := 0 },
            orientation := { x := 0, y := 0, z := 0, w := 1 } }
          (navInit scenarioPath false)).1 &&
        (updateStart (envScenario (some originTransform) 0)
          (setGoal (envScenario (some originTransform) 0)
            { position := { x := 1, y := 2, z := 0 },
              orientation := { x := 0, y := 0, z := 0, w := 1 } }
            (navInit scenarioPath false)).2).1 &&
        ((envScenario (some originTransform) 0).plannerPlan
          (updateStart (envScenario (some originTransform) 0)
            (setGoal (envScenario (some originTransform) 0)
              { position := { x := 1, y := 2, z := 0 },
                orientation := { x := 0, y := 0, z := 0, w := 1 } }
              (navInit scenarioPath false)).2).2.ivPlanner).1) :=
  (goalPoseCallback_idle (envScenario (some originTransform) 0)
    { position := { x := 1, y := 2, z := 0 }, orientation := { x := 0, y := 0, z := 0, w := 1 } }
    (navInit scenarioPath false) rfl).1

/-- C7: with a transform lookup that fails for both feet and a planner that
accepts every start, `updateStart` still calls `setStart` (with the content of
the default-constructed transform) and returns true, and `goalPoseCallback`
goes on to call `plan`, sets the execution flag and starts the execution
thread. -/
theorem updateStart_lookup_failure_still_plans :
    (updateStart (envScenario none 0) (navInit scenarioPath false)).1 = true ∧
    plannerCalls (updateStart (envScenario none 0) (navInit scenarioPath false)).2.log =
      [Event.plannerSetStart { x := 0, y := 0, theta := 0, leg := Leg.RIGHT }
        { x := 0, y := 0, theta := 0, leg := Leg.LEFT }] ∧
    (goalPoseCallback (envScenario none 0)
        { position := { x := 1, y := 2, z := 0 }, orientation := { x := 0, y := 0, z := 0, w := 1 } }
        (navInit scenarioPath false)).ivExecutingFootsteps = true ∧
    plannerCalls (goalPoseCallback (envScenario none 0)
        { position := { x := 1, y := 2, z := 0 }, orientation := { x := 0, y := 0, z := 0, w := 1 } }
        (navInit scenarioPath false)).log =
      [Event.plannerSetGoal 1 2 0,
       Event.plannerSetStart { x := 0, y := 0, theta := 0, leg := Leg.RIGHT }
        { x := 0, y := 0, theta := 0, leg := Leg.LEFT },
       Event.plannerPlan, Event.threadExecuteFootsteps] := by
  refine ⟨?_, ?_, ?_, ?_⟩ <;>
    simp [goalPoseCallback, setGoal, setGoalXYTheta, updateStart, getFootTransform, envScenario,
      navInit, Nav.emit, originTransform, plannerCalls]

/-- C8: on an empty path `executeFootsteps` returns at once and changes
nothing, so an execution flag that was set stays set. -/
theorem executeFootsteps_empty_path_keeps_flag :
    (executeFootsteps (envScenario (some originTransform) 0) (navInit [] true)).exited = false ∧
    issuedBy (navInit [] true)
      (executeFootsteps (envScenario (some originTransform) 0) (navInit [] true)) = [] ∧
    (executeFootsteps (envScenario (some originTransform) 0)
      (navInit [] true)).nav.ivExecutingFootsteps = true := by
  rw [executeFootsteps_nil (envScenario (some originTransform) 0) (navInit [] true) rfl]
  exact ⟨rfl, rfl, rfl⟩

/-- C9 as stated fails: on the two-element scenario path with every step
performable the clip service is called twice, not once. -/
theorem clip_calls_not_N_minus_one :
    ¬ ∀ (env : Env (List State)) (nav : Nav (List State)) (path : List State),
      env.plannerPath nav.ivPlanner = path → 1 ≤ path.length →
      (feasibilityChecks (issuedBy nav (executeFootsteps env nav))).all (performable nav) = true →
      (clipCalls (issuedBy nav (executeFootsteps env nav))).length = path.length - 1 := by
  intro hall
  have h := hall (envScenario (some originTransform) 0) (navInit scenarioPath true) scenarioPath
    rfl (by decide)
    (by decide)
  have hx : (executeFootsteps (envScenario (some originTransform) 0)
      (navInit scenarioPath true)).exited = false := by
    decide
  have hclip := ((executeFootsteps_spec (envScenario (some originTransform) 0)
    (navInit scenarioPath true)).2.2.2.2.1 hx).2.2.2.1
  have h1 : scenarioPath.length - 1 = 1 := rfl
  have h2 : 2 * (List.tail ((envScenario (some originTransform) 0).plannerPath
      (navInit scenarioPath true).ivPlanner)).length = 2 := rfl
  rw [h1] at h
  rw [h2, h] at hclip
  exact absurd hclip (by decide)

/-- C9, amended: on a path of length N at least 1 whose feasibility checks are
all judged performable, one run of `executeFootsteps` makes exactly N-1
feasibility checks in `getFootstep`, and calls the clip service 2(N-1) times,
because `debugFootstepExecution` calls it once more in every iteration. -/
theorem executeFootsteps_check_count (env : Env P) (nav : Nav P) (path : List State)
    (hpath : env.plannerPath nav.ivPlanner = path) (_hN : 1 ≤ path.length)
    (hperf : (feasibilityChecks (issuedBy nav (executeFootsteps env nav))).all
      (performable nav) = true) :
    (feasibilityChecks (issuedBy nav (executeFootsteps env nav))).length = path.length - 1 ∧
    (clipCalls (issuedBy nav (executeFootsteps env nav))).length = 2 * (path.length - 1) := by
  obtain ⟨_, _, _, _, hok, hex⟩ := executeFootsteps_spec env nav
  have hE : (executeFootsteps env nav).exited = false := by
    cases hx : (executeFootsteps env nav).exited with
    | false => rfl
    | true =>
      obtain ⟨⟨cs, c, h1, _, h3⟩, _⟩ := hex hx
      rw [h1, List.all_eq_true] at hperf
      have := hperf c (by simp)
      rw [h3] at this
      exact absurd this (by simp)
  obtain ⟨hlegs, _, _, hclip, _⟩ := hok hE
  rw [hpath] at hlegs hclip
  refine ⟨?_, ?_⟩
  · rw [← List.length_map _ (fun c : ClipFootstep => c.request.leg), hlegs, List.length_map,
      List.length_tail]
  · rw [hclip, List.length_tail]

/-- Witness for C9, amended: the two-element scenario path gives one
feasibility check and two calls of the clip service. -/
theorem executeFootsteps_check_count_witness :
    (feasibilityChecks (issuedBy (navInit scenarioPath true)
        (executeFootsteps (envScenario (some originTransform) 0)
          (navInit scenarioPath true)))).length = 2 - 1 ∧
    (clipCalls (issuedBy (navInit scenarioPath true)
        (executeFootsteps (envScenario (some originTransform) 0)
          (navInit scenarioPath true)))).length = 2 * (2 - 1) :=
  executeFootsteps_check_count (envScenario (some originTransform) 0)
    (navInit scenarioPath true) scenarioPath rfl (by decide)
    (by decide)

/-- C10: when the lookup throws, `getFootTransform` returns normally after a
warning, but its output is overwritten with the content of the
default-constructed stamped transform; the value the output had before the
call is lost. -/
theorem getFootTransform_failure_overwrites :
    (getFootTransform (envScenario none 0) "/LFoot_link" "map" 0 farTransform
      (navInit [] false)).1 = originTransform ∧
    (getFootTransform (envScenario none 0) "/LFoot_link" "map" 0 farTransform
      (navInit [] false)).1 ≠ farTransform ∧
    (getFootTransform (envScenario none 0) "/LFoot_link" "map" 0 farTransform
      (navInit [] false)).2.log =
      [Event.lookupTransform "map" "/LFoot_link" 0,
       Event.rosWarn "Failed to obtain FootTransform from tf (%s)"] := by
  refine ⟨?_, ?_, ?_⟩ <;> decide

/-- C11: the request that `getFootstep` sends to the clip service, for every
support-foot transform, target state, incoming `footstep` and history.  With
`fs` the output of `get_footstep` for the support leg opposite to `to.leg`,
the request is `(fs.x, fs.y, fs.theta)` with leg `left` when `to.leg` is LEFT
and `(fs.x, -fs.y, -fs.theta)` with leg `right` when `to.leg` is RIGHT: x is
passed through, y and theta are negated once, and the request leg is the leg
of the stepping foot. -/
theorem getFootstep_request_mirrored (env : Env P) (from_ : Transform) (to_ : State)
    (footstep : StepTarget) (nav : Nav P) :
    ∃ request : StepTarget,
      (getFootstep env from_ to_ footstep nav).2.2.log =
        nav.log ++ [Event.clipFootstep ClipSite.getFootstep request
          (env.clipFootstep nav.log request)] ∧
      request.leg = stepLeg to_.leg ∧
      request =
        if to_.leg = Leg.LEFT then
          { pose :=
              { x := (env.get_footstep from_.origin.x from_.origin.y (env.getYaw from_.rotation)
                  to_.x to_.y to_.theta Leg.RIGHT).1,
                y := (env.get_footstep from_.origin.x from_.origin.y (env.getYaw from_.rotation)
                  to_.x to_.y to_.theta Leg.RIGHT).2.1,
                theta := (env.get_footstep from_.origin.x from_.origin.y
                  (env.getYaw from_.rotation) to_.x to_.y to_.theta Leg.RIGHT).2.2 },
            leg := StepTarget.left }
        else
          { pose :=
              { x := (env.get_footstep from_.origin.x from_.origin.y (env.getYaw from_.rotation)
                  to_.x to_.y to_.theta Leg.LEFT).1,
                y := -(env.get_footstep from_.origin.x from_.origin.y (env.getYaw from_.rotation)
                  to_.x to_.y to_.theta Leg.LEFT).2.1,
                theta := -(env.get_footstep from_.origin.x from_.origin.y
                  (env.getYaw from_.rotation) to_.x to_.y to_.theta Leg.LEFT).2.2 },
            leg := StepTarget.right } := by
  refine ⟨getFootstepRequest env from_ to_ footstep, ?_,
    getFootstepRequest_leg env from_ to_ footstep, ?_⟩
  · rw [getFootstep_eq]
    split <;> rfl
  · cases hl : to_.leg <;> simp [getFootstepRequest, hl]

/-! ## Which foot is looked up -/

/-- The events of one `getFootTransform` call hold exactly one lookup, of the
frames passed in, and no clip call. -/
theorem getFootTransform_lookup (env : Env P) (foot_id world_frame_id : String) (time : Nat)
    (foot : Transform) (nav : Nav P) :
    ∃ ev, (getFootTransform env foot_id world_frame_id time foot nav).2 =
        { nav with log := nav.log ++ ev } ∧
      feasibilityChecks ev = [] ∧ lookupCalls ev = [(world_frame_id, foot_id)] := by
  cases h : env.lookupTransform nav.log world_frame_id foot_id time with
  | some t =>
    refine ⟨[Event.lookupTransform world_frame_id foot_id time], ?_, rfl, rfl⟩
    simp [getFootTransform, h, Nav.emit]
  | none =>
    refine ⟨[Event.lookupTransform world_frame_id foot_id time,
      Event.rosWarn "Failed to obtain FootTransform from tf (%s)"], ?_, rfl, rfl⟩
    simp [getFootTransform, h, Nav.emit]

end footstep_planner
